import Mathlib

/-!
Verification of the Semantica local document search engine (directory
local-doc-search) against its natural-language specification.

The development shallowly embeds the Python source:

* DocumentProcessor._create_chunks  (document_processor.py)  -> Semantica.create_chunks
* FAISSIndexer                      (indexer.py)             -> Semantica.FAISSIndexer.*
* MetadataStore                     (metadata_store.py)      -> Semantica.MetadataStore.*
* DocumentSearchEngine              (search.py)              -> Semantica.Engine.*
* the interactive json dispatcher   (cli.py)                 -> Semantica.dispatcher_clear

Modelling conventions, identical across the file:

* python floats (embedding components, distances, scores, mtimes) are
  modelled as rationals;
* numpy arrays of shape (n, d) are modelled by EmbMatrix, a list of rows
  together with the explicit column count of the array (the column count
  exists even when n = 0, exactly as numpy shape (0, d) does);
* python sets of strings are modelled as duplicate-free lists, with only
  membership and cardinality ever used;
* a python method that mutates self and may raise is modelled as a pure
  function returning (new state, Option errorMessage); every raise in the
  modelled sources happens before the first mutation of self, which the
  model mirrors by returning the unchanged state alongside the message;
* md5 hex digests (chunk ids) are modelled by their preimage strings:
  md5 is a fixed pure function of its input, so determinism statements
  are unaffected;
* wall-clock fields (created_at, last_updated, indexed_at) and the bytes
  on disk are not modelled; persistence is modelled by the PersistedIndex
  record holding exactly the data of the three co-located artifacts.
-/

namespace Semantica

/-- Whitespace test used for the python str.split() and str.strip() model. -/
def isWs (c : Char) : Bool := c.isWhitespace

/-- Helper for pyWords: walks the character list keeping an accumulator of
the current (reversed) word, emitting a word at each whitespace run. -/
def pyWordsAux : List Char → List Char → List (List Char)
  | [], acc => if acc = [] then [] else [acc.reverse]
  | c :: cs, acc =>
      if isWs c then
        if acc = [] then pyWordsAux cs [] else acc.reverse :: pyWordsAux cs []
      else
        pyWordsAux cs (c :: acc)

/-- Model of python text.split() with no argument: maximal runs of
non-whitespace characters, empty strings never produced. -/
def pyWords (s : List Char) : List (List Char) := pyWordsAux s []

/-- Model of python " ".join(words). -/
def joinWords (ws : List (List Char)) : List Char := List.intercalate [' '] ws

/-- Model of python str.strip(): drop leading and trailing whitespace. -/
def pyStrip (l : List Char) : List Char :=
  ((l.dropWhile isWs).reverse.dropWhile isWs).reverse

/-- Model of os.path.basename: the suffix after the last slash. -/
def basename (s : String) : String :=
  ⟨(s.data.reverse.takeWhile (fun c => c ≠ '/')).reverse⟩

/-- Metadata dict attached to each chunk by _create_chunks
(document_processor.py lines 389-395). -/
structure ChunkMeta where
  file_path : String
  file_name : String
  chunk_index : ℕ
  start_index : ℕ
  end_index : ℕ
deriving DecidableEq, Repr

/-- The DocumentChunk dataclass (document_processor.py lines 15-20).
Content is kept as a character list so that every operation on it is
kernel-computable. -/
structure DocumentChunk where
  content : List Char
  metadata : ChunkMeta
  chunk_id : String
  document_id : String
deriving DecidableEq, Repr

instance : Inhabited DocumentChunk :=
  ⟨⟨[], ⟨ "", "", 0, 0, 0⟩, "", ""⟩⟩

/-- Chunk id model: the source computes
hashlib.md5(f"-open-document_id-close-_-open-i-close-".encode()).hexdigest();
we keep the md5 preimage string, a faithful model for every determinism
statement since md5 is itself a pure function. -/
def chunk_id_of (document_id : String) (i : ℕ) : String :=
  document_id ++ "_" ++ toString i

/-- Chunking parameters of DocumentProcessor (chunk_size and chunk_overlap,
in words). -/
structure ChunkParams where
  chunk_size : ℕ
  chunk_overlap : ℕ
deriving DecidableEq, Repr

/-- Model of python range(0, n, step) for step at least 1: the list
0, step, 2*step, ... of all multiples of step below n. -/
def pyRange (n step : ℕ) : List ℕ :=
  List.range' 0 ((n + step - 1) / step) step

/-- Loop body of _create_chunks (document_processor.py lines 380-404):
walks the candidate offsets, joins words[i : i+chunk_size], drops the
candidate when the stripped rejoined text has fewer than 50 characters,
and otherwise appends a chunk whose chunk_index is the number of chunks
kept so far. -/
def create_chunks_go (p : ChunkParams) (words : List (List Char))
    (file_path document_id : String) :
    List ℕ → List DocumentChunk → List DocumentChunk
  | [], acc => acc
  | i :: rest, acc =>
      let ct := joinWords ((words.drop i).take p.chunk_size)
      if (pyStrip ct).length < 50 then
        create_chunks_go p words file_path document_id rest acc
      else
        create_chunks_go p words file_path document_id rest (acc ++
          [{ content := ct,
             metadata :=
               { file_path := file_path,
                 file_name := basename file_path,
                 chunk_index := acc.length,
                 start_index := i,
                 end_index := min (i + p.chunk_size) words.length },
             chunk_id := chunk_id_of document_id i,
             document_id := document_id }])

/-- Model of DocumentProcessor._create_chunks (document_processor.py lines
373-406). The text is split into whitespace-delimited words; offsets are
range(0, len(words), chunk_size - chunk_overlap). Note that the subtraction
is natural-number subtraction; the sources are only ever run with
chunk_overlap < chunk_size (python range would reject step 0). -/
def create_chunks (p : ChunkParams) (text : String)
    (file_path document_id : String) : List DocumentChunk :=
  let words := pyWords text.data
  if words = [] then []
  else
    create_chunks_go p words file_path document_id
      (pyRange words.length (p.chunk_size - p.chunk_overlap)) []

/-- Keeps, in order, the candidate offsets whose rejoined text survives the
minimum-content filter, paired with the rejoined text (specification-side
helper for the chunking refinement). -/
def spec_candidates (p : ChunkParams) (words : List (List Char)) :
    List ℕ → List (ℕ × List Char)
  | [] => []
  | i :: rest =>
      let ct := joinWords ((words.drop i).take p.chunk_size)
      if (pyStrip ct).length < 50 then spec_candidates p words rest
      else (i, ct) :: spec_candidates p words rest

/-- Chunking algorithm written from the words of the specification
(sections 3 and 4.1): chunks start at word offsets 0, step, 2*step, ...
with step = chunk_size - chunk_overlap, each spans [offset,
offset+chunk_size) words clipped at text end, candidates whose rejoined
text is below the minimum-content threshold are dropped, chunk ids are a
deterministic function of (document_id, start offset), and chunk_index is
dense and zero-based over the kept sequence. -/
def create_chunks_spec (p : ChunkParams) (text : String)
    (file_path document_id : String) : List DocumentChunk :=
  let words := pyWords text.data
  let step := p.chunk_size - p.chunk_overlap
  (spec_candidates p words (pyRange words.length step)).enum.map
    (fun jc =>
      { content := jc.2.2,
        metadata :=
          { file_path := file_path,
            file_name := basename file_path,
            chunk_index := jc.1,
            start_index := jc.2.1,
            end_index := min (jc.2.1 + p.chunk_size) words.length },
        chunk_id := chunk_id_of document_id jc.2.1,
        document_id := document_id })

/-! The FAISS indexer (indexer.py). -/

/-- Index-level metadata (indexer.py lines 50-56); the created_at and
last_updated wall-clock strings are not modelled. -/
structure IndexMetadata where
  index_type : String
  total_documents : ℕ
  total_chunks : ℕ
deriving DecidableEq, Repr

/-- State of a FAISSIndexer instance: embedding_dim, the vectors held by
the faiss index object (index.ntotal = vectors.length and
index.reconstruct(i) = vectors[i]), the parallel chunk payload list, the
document_ids set (duplicate-free list) and the metadata dict. -/
structure IndexState where
  embedding_dim : ℕ
  vectors : List (List ℚ)
  chunks : List DocumentChunk
  document_ids : List String
  metadata : IndexMetadata

/-- Model of FAISSIndexer.create_new_index (indexer.py lines 41-59): a
fresh empty index of the given type; it also resets chunks and
document_ids. -/
def create_new_index (dim : ℕ) (index_type : String) : IndexState :=
  { embedding_dim := dim,
    vectors := [],
    chunks := [],
    document_ids := [],
    metadata := { index_type := index_type, total_documents := 0, total_chunks := 0 } }

/-- Model of a numpy array of shape (rows.length, cols): the column count
is part of the array value, exactly as numpy shape is, so it is defined
even for zero rows. -/
structure EmbMatrix where
  rows : List (List ℚ)
  cols : ℕ

/-- Set-model insertion used for self.document_ids.add. -/
def ids_add (ids : List String) (d : String) : List String :=
  if d ∈ ids then ids else ids ++ [d]

/-- Model of FAISSIndexer.add_documents (indexer.py lines 66-104).
Returns the new state and optionally the message of the ValueError that
the python raises; each raise happens before any mutation of self, so on
an error the returned state is the input state. The IVF training branch
only trains the quantizer and adds no vectors, hence it does not appear
in the state model. -/
def add_documents (st : IndexState) (chunks : List DocumentChunk)
    (emb : EmbMatrix) : IndexState × Option String :=
  if chunks.length ≠ emb.rows.length then
    (st, some "Number of chunks must match number of embeddings")
  else if chunks.length = 0 then
    (st, none)
  else if emb.cols ≠ st.embedding_dim then
    (st, some "Embedding dimension mismatch")
  else
    let new_chunks := st.chunks ++ chunks
    let new_ids := chunks.foldl (fun ids c => ids_add ids c.document_id) st.document_ids
    ({ embedding_dim := st.embedding_dim,
       vectors := st.vectors ++ emb.rows,
       chunks := new_chunks,
       document_ids := new_ids,
       metadata :=
         { index_type := st.metadata.index_type,
           total_documents := new_ids.length,
           total_chunks := new_chunks.length } }, none)

/-- Squared euclidean distance as computed by the faiss flat L2 index.
Written with mul rather than a power so that it is kernel-computable. -/
def sqDist (q v : List ℚ) : ℚ :=
  ((q.zip v).map (fun p => (p.1 - p.2) * (p.1 - p.2))).sum

/-- Comparison by distance used to model the ranking faiss returns. -/
def distLe (a b : ℕ × ℚ) : Prop := a.2 ≤ b.2

instance : DecidableRel distLe := fun a b =>
  inferInstanceAs (Decidable (a.2 ≤ b.2))

instance : IsTotal (ℕ × ℚ) distLe := ⟨fun a b => le_total a.2 b.2⟩

instance : IsTrans (ℕ × ℚ) distLe := ⟨fun _ _ _ h h2 => le_trans h h2⟩

/-- Model of FAISSIndexer.search (indexer.py lines 112-136). An empty
index returns the empty list before the dimension check; a query of the
wrong dimension raises; otherwise faiss ranks all stored vectors by
ascending squared L2 distance (modelled by a stable insertion sort of the
enumerated distance list), the k = min(k, ntotal) best indices are walked,
each index is kept only when it is a valid chunk list offset, and each
kept pair becomes (chunk, 1 / (1 + distance)). -/
def search (st : IndexState) (query : List ℚ) (k : ℕ) :
    Except String (List (DocumentChunk × ℚ)) :=
  if st.vectors.length = 0 then .ok []
  else if query.length ≠ st.embedding_dim then
    .error "Query embedding dimension mismatch"
  else
    let ranked := List.insertionSort distLe (st.vectors.map (sqDist query)).enum
    let top := ranked.take (min k st.vectors.length)
    .ok (top.filterMap (fun p =>
      if h : p.1 < st.chunks.length then
        some (st.chunks.get ⟨p.1, h⟩, 1 / (1 + p.2))
      else none))

/-- Data of the co-located persisted artifacts written by save_index
(indexer.py lines 138-157): faiss.index (the raw vectors), metadata.json,
chunks.pkl and the optional index_config.json. -/
structure PersistedIndex where
  vectors : List (List ℚ)
  metadata : IndexMetadata
  chunks : List DocumentChunk
  config_embedding_dim : Option ℕ

/-- Model of FAISSIndexer.save_index: the three artifacts plus the config
file are written from the current state. -/
def save_index (st : IndexState) : PersistedIndex :=
  { vectors := st.vectors,
    metadata := st.metadata,
    chunks := st.chunks,
    config_embedding_dim := some st.embedding_dim }

/-- Model of FAISSIndexer.load_index (indexer.py lines 164-191). The
argument is none when no faiss.index file exists (the python raises
ValueError); otherwise every artifact is loaded exactly as stored, the
embedding dimension is overridden by the config file when present, and
document_ids is recomputed from the loaded chunk payloads. No comparison
between the loaded vector count and the loaded chunk count is performed. -/
def load_index (current_dim : ℕ) (art : Option PersistedIndex) :
    Except String IndexState :=
  match art with
  | none => .error "No index found"
  | some a =>
      .ok { embedding_dim := a.config_embedding_dim.getD current_dim,
            vectors := a.vectors,
            chunks := a.chunks,
            document_ids := (a.chunks.map (fun c => c.document_id)).dedup,
            metadata := a.metadata }

/-- Model of FAISSIndexer.clear_index (indexer.py lines 193-203): the
state is replaced by a fresh index of the same type and dimension (the
on-disk artifacts are also unlinked, which the state model does not
track). -/
def clear_index (st : IndexState) : IndexState :=
  create_new_index st.embedding_dim st.metadata.index_type

/-- Model of FAISSIndexer.remove_document (indexer.py lines 205-251),
kept step for step with the source: an unknown document id returns
unchanged; indices_to_keep enumerates the chunk offsets of the surviving
chunks; the surviving vectors are reconstructed from the old index in
the same relative order; create_new_index is then called, which resets
vectors, chunks and also document_ids; the new vectors are added, chunks is
set to the survivors, discard runs on the (just reset) document_ids set,
and the metadata counters are recomputed from those fields. -/
def remove_document (st : IndexState) (document_id : String) : IndexState :=
  if document_id ∉ st.document_ids then st
  else
    let indices_to_keep :=
      (st.chunks.enum.filter (fun p => p.2.document_id ≠ document_id)).map
        (fun p => p.1)
    if indices_to_keep.length = st.chunks.length then st
    else
      let new_chunks := indices_to_keep.map (fun i => st.chunks.getD i default)
      let new_vectors := indices_to_keep.map (fun i => st.vectors.getD i [])
      let st1 := create_new_index st.embedding_dim st.metadata.index_type
      let st2 := { st1 with vectors := new_vectors }
      let final_ids := st2.document_ids.filter (fun d => d ≠ document_id)
      { st2 with
        chunks := new_chunks,
        document_ids := final_ids,
        metadata :=
          { index_type := st2.metadata.index_type,
            total_documents := final_ids.length,
            total_chunks := new_chunks.length } }

/-- Number of distinct document ids among a chunk list. -/
def distinct_doc_count (chunks : List DocumentChunk) : ℕ :=
  (chunks.map (fun c => c.document_id)).dedup.length

/-- The vector index state invariant stated by the specification (section
3, VectorIndex state): the vector count, the chunk payload count and
total_chunks agree; total_documents is the number of distinct document
ids among the stored chunks; every vector has embedding_dim components. -/
def IndexInvariant (st : IndexState) : Prop :=
  st.vectors.length = st.chunks.length ∧
  st.metadata.total_chunks = st.chunks.length ∧
  st.metadata.total_documents = distinct_doc_count st.chunks ∧
  ∀ v ∈ st.vectors, v.length = st.embedding_dim

instance (st : IndexState) : Decidable (IndexInvariant st) := by
  unfold IndexInvariant; infer_instance

/-! The metadata store (metadata_store.py). -/

/-- Classification results of MetadataStore.get_file_status. -/
inductive FileStatus where
  | new
  | modified
  | unchanged
  | deleted
deriving DecidableEq, Repr

/-- Row of the files table, the FileInfo dataclass (metadata_store.py
lines 14-22); the indexed_at timestamp is not modelled. -/
structure FileRecord where
  file_path : String
  file_size : ℤ
  modified_time : ℚ
  document_id : String
  content_hash : Option String
deriving DecidableEq

/-- Row of the chunks table: chunk_id, owning document_id and the position
of the chunk in the vector index. -/
structure ChunkRow where
  chunk_id : String
  document_id : String
  vector_index : ℕ
deriving DecidableEq

/-- State of the sqlite catalog: the files, chunks and folders tables.
A folder row is (folder_path, total_files); its last_indexed timestamp is
not modelled. -/
structure StoreState where
  files : List FileRecord
  chunks : List ChunkRow
  folders : List (String × ℕ)
deriving DecidableEq

/-- Lookup of the unique files row for a path (file_path is the primary
key). -/
def find_file (s : StoreState) (fp : String) : Option FileRecord :=
  s.files.find? (fun r => r.file_path = fp)

/-- Guard of the first branch of get_file_status: true exactly when both
the observed and the stored content hash are present and differ. -/
def hash_differs : Option String → Option String → Bool
  | some h, some sh => h ≠ sh
  | _, _ => false

/-- Model of MetadataStore.get_file_status (metadata_store.py lines
95-151) on the branch where the observed stats are passed in by the
caller: no files row gives new; otherwise, when both the observed and the
stored content hash are present and differ the file is modified; the
control flow then falls through to the mtime and size comparison in every
remaining case (equal hashes included); only when both mtime and size
match is the file unchanged. -/
def get_file_status (record : Option FileRecord) (observed_hash : Option String)
    (observed_size : ℤ) (observed_mtime : ℚ) : FileStatus :=
  match record with
  | none => .new
  | some r =>
      if hash_differs observed_hash r.content_hash then .modified
      else if observed_mtime ≠ r.modified_time ∨ observed_size ≠ r.file_size then .modified
      else .unchanged

/-- Classifier written from the words of the amended claim: new when no
record exists; for an existing record, modified exactly when either both
hashes are present and differ, or the observed mtime or size differs from
the stored row; unchanged otherwise. -/
def classify_spec (record : Option FileRecord) (observed_hash : Option String)
    (observed_size : ℤ) (observed_mtime : ℚ) : FileStatus :=
  match record with
  | none => .new
  | some r =>
      if (observed_hash.isSome ∧ r.content_hash.isSome ∧ observed_hash ≠ r.content_hash)
         ∨ observed_mtime ≠ r.modified_time ∨ observed_size ≠ r.file_size
      then .modified else .unchanged

/-- Model of MetadataStore.remove_file (metadata_store.py lines 199-223):
deletes the files row and the chunk rows of its document and returns the
removed document_id, or returns none leaving the store unchanged. -/
def remove_file (s : StoreState) (fp : String) : StoreState × Option String :=
  match find_file s fp with
  | none => (s, none)
  | some r =>
      ({ files := s.files.filter (fun x => x.file_path ≠ fp),
         chunks := s.chunks.filter (fun c => c.document_id ≠ r.document_id),
         folders := s.folders }, some r.document_id)

/-- Model of MetadataStore.update_file (metadata_store.py lines 173-197):
deletes the chunk rows of the document currently owning the path, upserts
the files row (content_hash is left NULL by this statement) and inserts
one chunk row per (chunk_id, vector_index) pair. The os.stat call is
modelled by passing the observed (size, mtime). -/
def update_file (s : StoreState) (fp document_id : String)
    (chunk_ids : List String) (vector_indices : List ℕ)
    (size : ℤ) (mtime : ℚ) : StoreState :=
  let chunks1 :=
    match find_file s fp with
    | none => s.chunks
    | some old => s.chunks.filter (fun c => c.document_id ≠ old.document_id)
  let files1 := s.files.filter (fun r => r.file_path ≠ fp) ++
    [{ file_path := fp, file_size := size, modified_time := mtime,
       document_id := document_id, content_hash := none }]
  let new_rows := (chunk_ids.zip vector_indices).map
    (fun p => { chunk_id := p.1, document_id := document_id, vector_index := p.2 : ChunkRow })
  { files := files1, chunks := chunks1 ++ new_rows, folders := s.folders }

/-- Model of MetadataStore.update_folder_stats: upsert of the folders
row. -/
def update_folder_stats (s : StoreState) (folder : String) (total : ℕ) : StoreState :=
  { s with folders := s.folders.filter (fun f => f.1 ≠ folder) ++ [(folder, total)] }

/-- Model of MetadataStore.clear_all (metadata_store.py lines 330-336):
every row of the three tables is deleted. -/
def clear_all (_s : StoreState) : StoreState :=
  { files := [], chunks := [], folders := [] }

/-! The search orchestrator (search.py) and the json dispatcher (cli.py). -/

/-- State of one DocumentSearchEngine: its FAISSIndexer and its
MetadataStore (search.py lines 37-47). -/
structure Engine where
  indexer : IndexState
  store : StoreState

/-- The change information dictionary returned by
process_directory_incremental: file paths classified as new, modified,
deleted and unchanged. -/
structure ChangeInfo where
  new : List String
  modified : List String
  deleted : List String
  unchanged : List String

/-- One entry of the file_chunks grouping dictionary built by
index_directory_incremental (search.py lines 140-150). -/
structure FileGroup where
  path : String
  document_id : String
  chunk_ids : List String
  vector_indices : List ℕ

/-- Insertion-ordered update of the file_chunks dictionary with one chunk
and its vector position. -/
def group_insert (gs : List FileGroup) (c : DocumentChunk) (pos : ℕ) : List FileGroup :=
  if gs.any (fun g => g.path = c.metadata.file_path) then
    gs.map (fun g =>
      if g.path = c.metadata.file_path then
        { g with chunk_ids := g.chunk_ids ++ [c.chunk_id],
                 vector_indices := g.vector_indices ++ [pos] }
      else g)
  else
    gs ++ [{ path := c.metadata.file_path, document_id := c.document_id,
             chunk_ids := [c.chunk_id], vector_indices := [pos] }]

/-- The file_chunks grouping of search.py lines 140-150: chunk i of the
batch is assigned vector position start_idx + i and filed under its
file_path; the first chunk of a file fixes the document_id of its
group. -/
def group_by_file (chunks : List DocumentChunk) (start_idx : ℕ) : List FileGroup :=
  chunks.enum.foldl (fun gs p => group_insert gs p.2 (start_idx + p.1)) []

/-- Model of DocumentSearchEngine.index_directory_incremental (search.py
lines 89-187) at the state level. The document pipeline and the embedding
model are external: their outputs (the chunk batch for new and modified
files, the embedding matrix) are inputs here, as is the os.stat view
(stat) used by update_file. Deleted files are handled first: each is
removed from the metadata store only - the source carries the comment
TODO Remove from FAISS index when supported and performs no vector index
mutation for them. With no chunks and no deleted files the call returns
before touching anything else. Otherwise the chunk batch (when nonempty)
is embedded into the index starting at the current index size, the chunk
positions are recorded per file, and the folder statistics are updated. -/
def index_directory_incremental (e : Engine) (directory : String)
    (chunks : List DocumentChunk) (emb : EmbMatrix) (change : ChangeInfo)
    (stat : String → ℤ × ℚ) : Engine × Option String :=
  let store1 := change.deleted.foldl (fun s f => (remove_file s f).1) e.store
  if chunks = [] ∧ change.deleted = [] then ({ e with store := store1 }, none)
  else
    let folder_total := change.new.length + change.modified.length + change.unchanged.length
    if chunks = [] then
      ({ indexer := e.indexer,
         store := update_folder_stats store1 directory folder_total }, none)
    else
      let start_idx := e.indexer.vectors.length
      match add_documents e.indexer chunks emb with
      | (st1, some err) => ({ indexer := st1, store := store1 }, some err)
      | (st1, none) =>
          let store2 := (group_by_file chunks start_idx).foldl
            (fun s g => update_file s g.path g.document_id g.chunk_ids
              g.vector_indices (stat g.path).1 (stat g.path).2) store1
          ({ indexer := st1,
             store := update_folder_stats store2 directory folder_total }, none)

/-- Model of DocumentSearchEngine.clear_index (search.py lines 288-294):
clears the vector index and, when incremental indexing is enabled, also
the metadata store. -/
def engine_clear_index (e : Engine) : Engine :=
  { indexer := clear_index e.indexer, store := clear_all e.store }

/-- Reply sent by the dispatcher for the clear action. -/
structure ClearResponse where
  success : Bool
  action : String
deriving DecidableEq, Repr

/-- Model of the clear branch of the interactive json dispatcher (cli.py
lines 246-259): it calls search_engine.indexer.clear_index() - the
FAISSIndexer method, not DocumentSearchEngine.clear_index - and replies
with success; the metadata store is never touched by this branch. -/
def dispatcher_clear (e : Engine) : Engine × ClearResponse :=
  ({ e with indexer := clear_index e.indexer }, { success := true, action := "clear" })

/-! Concrete states used by the closed evaluation theorems and the
witnesses. -/

/-- Chunk of the single indexed file f.txt used by the deleted-file
scenario. -/
def chunkD : DocumentChunk :=
  { content := [ 'x' ],
    metadata := { file_path := "f.txt", file_name := "f.txt",
                  chunk_index := 0, start_index := 0, end_index := 1 },
    chunk_id := "c1", document_id := "d1" }

/-- Index state holding exactly the one chunk of f.txt at vector 0. -/
def indexerD : IndexState :=
  { embedding_dim := 1,
    vectors := [[0]],
    chunks := [chunkD],
    document_ids := [ "d1" ],
    metadata := { index_type := "Flat", total_documents := 1, total_chunks := 1 } }

/-- Catalog holding the f.txt row and its chunk row. -/
def storeD : StoreState :=
  { files := [{ file_path := "f.txt", file_size := 1, modified_time := 0,
                document_id := "d1", content_hash := none }],
    chunks := [{ chunk_id := "c1", document_id := "d1", vector_index := 0 }],
    folders := [] }

/-- Engine in which f.txt is fully indexed. -/
def engineD : Engine := { indexer := indexerD, store := storeD }

/-- ChangeSet observed after f.txt is deleted from disk and nothing else
changed. -/
def changeD : ChangeInfo :=
  { new := [], modified := [], deleted := [ "f.txt" ], unchanged := [] }

/-- Chunk of document a used by the remove_document scenario. -/
def chunkA : DocumentChunk :=
  { content := [ 'a' ],
    metadata := { file_path := "a.txt", file_name := "a.txt",
                  chunk_index := 0, start_index := 0, end_index := 1 },
    chunk_id := "ca", document_id := "a" }

/-- Chunk of document b used by the remove_document scenario. -/
def chunkB : DocumentChunk :=
  { content := [ 'b' ],
    metadata := { file_path := "b.txt", file_name := "b.txt",
                  chunk_index := 0, start_index := 0, end_index := 1 },
    chunk_id := "cb", document_id := "b" }

/-- Index state holding one chunk of document a and one of document b. -/
def indexerAB : IndexState :=
  { embedding_dim := 1,
    vectors := [[0], [2]],
    chunks := [chunkA, chunkB],
    document_ids := [ "a", "b" ],
    metadata := { index_type := "Flat", total_documents := 2, total_chunks := 2 } }

/-- Index state whose vector count (2) and chunk payload count (1) have
drifted apart, exercising the search bounds filter. -/
def indexerDrift : IndexState :=
  { embedding_dim := 1,
    vectors := [[0], [2]],
    chunks := [chunkA],
    document_ids := [ "a" ],
    metadata := { index_type := "Flat", total_documents := 1, total_chunks := 1 } }

/-- Persisted artifacts whose vector count (1) disagrees with the chunk
payload count (0). -/
def mismatchedArtifacts : PersistedIndex :=
  { vectors := [[0]],
    metadata := { index_type := "Flat", total_documents := 0, total_chunks := 0 },
    chunks := [],
    config_embedding_dim := some 1 }

/-! Theorems. -/

/-- C3 counterexample: a stored row whose content hash equals the observed
hash but whose mtime differs from the observed one is classified modified
by get_file_status; the claim states that equal present hashes give
unchanged regardless of mtime and size. -/
theorem c3_counterexample :
    get_file_status
      (some { file_path := "f", file_size := 10, modified_time := 1,
              document_id := "d", content_hash := some "h" })
      (some "h") 10 2 = .modified ∧
    hash_differs (some "h") (some "h") = false ∧
    (2 : ℚ) ≠ (1 : ℚ) := by
  refine ⟨rfl, rfl, by norm_num⟩

/-- C3 (amended): get_file_status classifies exactly as the claim with the
parenthetical removed: a path with no FileRecord is new; for an existing
record the result is modified precisely when both hashes are present and
differ, or the observed mtime or file size differs from the stored record;
it is unchanged otherwise. Equal present hashes do not short-circuit the
mtime and size comparison. -/
theorem c3_get_file_status_amended (record : Option FileRecord)
    (oh : Option String) (sz : ℤ) (mt : ℚ) :
    get_file_status record oh sz mt = classify_spec record oh sz mt := by
  cases record with
  | none => rfl
  | some r =>
      unfold get_file_status classify_spec
      cases ho : oh with
      | none => simp [hash_differs]
      | some h =>
          cases hc : r.content_hash with
          | none => simp [hash_differs, hc]
          | some sh =>
              by_cases hhs : h = sh
              · simp [hash_differs, hc, hhs]
              · simp [hash_differs, hc, hhs]

/-- C4 counterexample: persisted artifacts holding one vector and zero
chunk payloads load successfully and in full; no corruption error is
raised on the count mismatch. -/
theorem c4_counterexample :
    mismatchedArtifacts.vectors.length = 1 ∧
    mismatchedArtifacts.chunks.length = 0 ∧
    load_index 384 (some mismatchedArtifacts) = .ok
      { embedding_dim := 1, vectors := [[0]], chunks := [],
        document_ids := [],
        metadata := { index_type := "Flat", total_documents := 0, total_chunks := 0 } } :=
  ⟨rfl, rfl, rfl⟩

/-- C4 (amended): load_index performs no vector/chunk count validation at
all: every present artifact triple loads successfully, and the loaded
state carries exactly the stored vectors and exactly the stored chunk
payloads - never an error and never a truncation, even when the two
counts disagree. -/
theorem c4_load_index_amended (dim : ℕ) (art : PersistedIndex) :
    ∃ st, load_index dim (some art) = .ok st ∧
      st.vectors = art.vectors ∧ st.chunks = art.chunks :=
  ⟨_, rfl, rfl, rfl⟩

/-- C9 counterexample: an empty batch whose embedding array has declared
column count 5 against an index of dimension 384 returns without any
error and without change; the claim states that a differing dimension
always raises. -/
theorem c9_counterexample :
    (5 : ℕ) ≠ 384 ∧
    add_documents (create_new_index 384 "Flat") [] { rows := [], cols := 5 } =
      (create_new_index 384 "Flat", none) :=
  ⟨by decide, rfl⟩

/-- C9 (amended): for every nonempty batch whose chunk count matches its
embedding row count, a column count differing from embedding_dim makes
add_documents raise the dimension mismatch error, and the returned state
is exactly the input state - the raise precedes every mutation. -/
theorem c9_dimension_mismatch_amended (st : IndexState)
    (chunks : List DocumentChunk) (emb : EmbMatrix)
    (hne : chunks ≠ []) (hlen : chunks.length = emb.rows.length)
    (hdim : emb.cols ≠ st.embedding_dim) :
    add_documents st chunks emb = (st, some "Embedding dimension mismatch") := by
  have h0 : chunks.length ≠ 0 := by
    simpa [List.length_eq_zero] using hne
  unfold add_documents
  rw [if_neg (by omega), if_neg h0, if_pos hdim]

/-- Witness for C9 (amended): a one-chunk batch with a 2-column embedding
row against the dimension-1 index raises and leaves the state unchanged. -/
theorem c9_witness :
    (([chunkA] : List DocumentChunk) ≠ []) ∧
    ([chunkA].length = ({ rows := [[0, 0]], cols := 2 } : EmbMatrix).rows.length) ∧
    (({ rows := [[0, 0]], cols := 2 } : EmbMatrix).cols ≠ indexerAB.embedding_dim) ∧
    add_documents indexerAB [chunkA] { rows := [[0, 0]], cols := 2 } =
      (indexerAB, some "Embedding dimension mismatch") :=
  ⟨by simp, rfl, by decide,
    c9_dimension_mismatch_amended indexerAB [chunkA] { rows := [[0, 0]], cols := 2 }
      (by simp) rfl (by decide)⟩

/-- C5: evaluating the dispatcher clear branch on an engine whose catalog
is nonempty: the reply is success and the vector index is reset to a
fresh empty index, but the metadata store comes back untouched - its
files row survives, although the claim (with the specification, the
engine-level clear_index method and the repository test
test_json_mode_clear) requires all FileRecords, ChunkRecords and folder
rows to be deleted. -/
theorem c5_dispatcher_clear_keeps_metadata :
    (dispatcher_clear engineD).2 = { success := true, action := "clear" } ∧
    (dispatcher_clear engineD).1.indexer = create_new_index 1 "Flat" ∧
    (dispatcher_clear engineD).1.store = storeD ∧
    storeD.files ≠ [] := by
  refine ⟨rfl, rfl, rfl, by simp [storeD]⟩

/-- C2: evaluating remove_document on the index holding one chunk of
document a and one of document b: removing a leaves the chunk of b (one
distinct document id) but sets total_documents to 0, because
create_new_index inside remove_document resets the document_ids set
before the discard runs; the invariant holds before the call and fails
after it. -/
theorem c2_remove_document_breaks_invariant :
    IndexInvariant indexerAB ∧
    (remove_document indexerAB "a").chunks = [chunkB] ∧
    distinct_doc_count (remove_document indexerAB "a").chunks = 1 ∧
    (remove_document indexerAB "a").metadata.total_documents = 0 ∧
    ¬ IndexInvariant (remove_document indexerAB "a") := by
  refine ⟨by decide, rfl, rfl, rfl, by decide⟩

/-- Squared euclidean distances are nonnegative. -/
theorem sqDist_nonneg (q v : List ℚ) : 0 ≤ sqDist q v := by
  unfold sqDist
  apply List.sum_nonneg
  intro x hx
  obtain ⟨p, _, rfl⟩ := List.mem_map.mp hx
  exact mul_self_nonneg _

/-- Every entry of the ranking is a valid offset into the distance list
and carries a nonnegative distance. -/
theorem ranked_entry_bounds (st : IndexState) (q : List ℚ) (p : ℕ × ℚ)
    (hp : p ∈ List.insertionSort distLe (st.vectors.map (sqDist q)).enum) :
    p.1 < st.vectors.length ∧ 0 ≤ p.2 := by
  have hp2 : p ∈ (st.vectors.map (sqDist q)).enum :=
    ((List.perm_insertionSort distLe _).mem_iff).mp hp
  obtain ⟨hlt, hval⟩ := List.getElem?_eq_some.mp (List.mem_enum_iff_getElem?.mp hp2)
  have hlen : p.1 < st.vectors.length := by
    simpa using hlt
  refine ⟨hlen, ?_⟩
  have hmem : (st.vectors.map (sqDist q))[p.1] ∈ st.vectors.map (sqDist q) :=
    List.getElem_mem _
  rw [hval] at hmem
  obtain ⟨v, _, hv⟩ := List.mem_map.mp hmem
  rw [← hv]
  exact sqDist_nonneg q v

/-- C10: search is safe against vector/chunk count drift: for every state,
query and k, a successful search returns at most min(k, vector count)
results - candidate indices outside the chunk list are dropped by the
bounds filter rather than dereferenced - and every returned chunk is one
of the stored chunks. -/
theorem c10_search_bounds_safe (st : IndexState) (q : List ℚ) (k : ℕ)
    (res : List (DocumentChunk × ℚ)) (h : search st q k = .ok res) :
    res.length ≤ min k st.vectors.length ∧ ∀ pr ∈ res, pr.1 ∈ st.chunks := by
  unfold search at h
  by_cases h0 : st.vectors.length = 0
  · rw [if_pos h0] at h
    cases h
    simp
  · rw [if_neg h0] at h
    by_cases hq : q.length ≠ st.embedding_dim
    · rw [if_pos hq] at h
      cases h
    · rw [if_neg hq] at h
      cases h
      constructor
      · calc (List.filterMap _ _).length
            ≤ (List.take (min k st.vectors.length)
                (List.insertionSort distLe (st.vectors.map (sqDist q)).enum)).length :=
              List.length_filterMap_le _ _
          _ ≤ min k st.vectors.length := by
              rw [List.length_take]
              exact min_le_left _ _
      · intro pr hpr
        obtain ⟨p, _, hf⟩ := List.mem_filterMap.mp hpr
        by_cases hb : p.1 < st.chunks.length
        · rw [dif_pos hb] at hf
          cases hf
          exact List.get_mem _ _ _
        · rw [dif_neg hb] at hf
          cases hf

/-- Witness for C10: on the drifted state (two vectors, one chunk payload)
a search with k = 2 succeeds, returns a single result - fewer than
min(k, vector count) - and that result is the stored chunk. -/
theorem c10_witness :
    search indexerDrift [0] 2 = .ok [(chunkA, 1)] ∧
    ([(chunkA, (1 : ℚ))].length ≤ min 2 indexerDrift.vectors.length ∧
      ∀ pr ∈ [(chunkA, (1 : ℚ))], pr.1 ∈ indexerDrift.chunks) := by
  have hEval : search indexerDrift [0] 2 = .ok [(chunkA, 1)] := by
    norm_num [search, sqDist, distLe, List.insertionSort, List.orderedInsert,
      List.filterMap_cons, List.filterMap_nil, indexerDrift, chunkA]
  exact ⟨hEval, c10_search_bounds_safe indexerDrift [0] 2 [(chunkA, 1)] hEval⟩

/-- C1: evaluating index_directory_incremental on the engine where f.txt
is fully indexed, after f.txt was deleted from disk: the call succeeds,
the metadata rows of f.txt are removed, but the vector index comes back
identical - its total_chunks is still 1 - and a subsequent search still
returns the chunk of the deleted file, because the deleted-file loop of
search.py only calls remove_file on the metadata store and defers the
vector removal behind a TODO comment. -/
theorem c1_incremental_delete_leaves_vectors :
    index_directory_incremental engineD "dir" [] { rows := [], cols := 1 }
        changeD (fun _ => (0, 0)) =
      ({ indexer := indexerD,
         store := { files := [], chunks := [], folders := [("dir", 0)] } }, none) ∧
    indexerD.metadata.total_chunks = 1 ∧
    search indexerD [0] 10 = .ok [(chunkD, 1)] := by
  refine ⟨rfl, rfl, ?_⟩
  norm_num [search, sqDist, distLe, List.insertionSort, List.orderedInsert,
    List.filterMap_cons, List.filterMap_nil, indexerD, chunkD]

/-- Scores are strictly positive at nonnegative distance. -/
theorem score_pos (d : ℚ) (hd : 0 ≤ d) : 0 < 1 / (1 + d) :=
  div_pos one_pos (by linarith)

/-- Scores are at most one at nonnegative distance. -/
theorem score_le_one (d : ℚ) (hd : 0 ≤ d) : 1 / (1 + d) ≤ 1 := by
  rw [div_le_one (by linarith)]
  linarith

/-- A score equals one exactly at distance zero. -/
theorem score_eq_one_iff (d : ℚ) (hd : 0 ≤ d) : 1 / (1 + d) = 1 ↔ d = 0 := by
  rw [div_eq_one_iff_eq (ne_of_gt (by linarith : (0 : ℚ) < 1 + d))]
  constructor
  · intro h
    linarith
  · intro h
    rw [h, add_zero]

/-- When every index of the candidate list is a valid chunk offset, the
bounds filter of search keeps every candidate and the filterMap is a
plain map. -/
theorem filterMap_scores_eq_map (chunks : List DocumentChunk)
    (l : List (ℕ × ℚ)) (hb : ∀ p ∈ l, p.1 < chunks.length) :
    l.filterMap (fun p =>
        if h : p.1 < chunks.length then
          some (chunks.get ⟨p.1, h⟩, 1 / (1 + p.2))
        else none) =
    l.map (fun p => (chunks.getD p.1 default, 1 / (1 + p.2))) := by
  induction l with
  | nil => rfl
  | cons a t ih =>
      have ha : a.1 < chunks.length := hb a (List.mem_cons_self _ _)
      simp only [List.filterMap_cons, List.map_cons, dif_pos ha]
      rw [ih (fun p hp => hb p (List.mem_cons_of_mem _ hp)),
        List.getD_eq_get chunks default ha]

/-- C8: under the index invariant, for a query of the stored dimension,
search succeeds and behaves as specified: there is a ranking - a
permutation of the (index, squared distance) pairs over all stored
vectors, sorted by ascending distance - whose first min(k, vector count)
entries the result maps to (chunk, 1/(1+distance)) in order; the result
length is min(k, total_chunks) (zero on an empty index, so an empty
index gives the empty list rather than an error); every result pairs a
stored chunk with a score in (0, 1]; and along the ranking the score
reaches 1 exactly at distance 0. -/
theorem c8_search_spec (st : IndexState) (hInv : IndexInvariant st)
    (q : List ℚ) (hq : q.length = st.embedding_dim) (k : ℕ) :
    ∃ res ranked,
      search st q k = .ok res ∧
      List.Perm ranked (st.vectors.map (sqDist q)).enum ∧
      List.Sorted distLe ranked ∧
      res = (ranked.take (min k st.vectors.length)).map
        (fun p => (st.chunks.getD p.1 default, 1 / (1 + p.2))) ∧
      res.length = min k st.metadata.total_chunks ∧
      (∀ pr ∈ res, pr.1 ∈ st.chunks ∧ 0 < pr.2 ∧ pr.2 ≤ 1) ∧
      (∀ p ∈ ranked, (1 / (1 + p.2) = 1 ↔ p.2 = 0)) := by
  obtain ⟨hvc, htc, htd, hdims⟩ := hInv
  by_cases h0 : st.vectors.length = 0
  · have hv : st.vectors = [] := List.length_eq_zero.mp h0
    have htc0 : st.metadata.total_chunks = 0 := by omega
    refine ⟨[], [], ?_, ?_, List.sorted_nil, ?_, ?_, ?_, ?_⟩
    · unfold search
      rw [if_pos h0]
    · simp [hv]
    · simp
    · simp [htc0]
    · intro pr hpr
      simp at hpr
    · intro p hp
      simp at hp
  · have hperm : List.Perm (List.insertionSort distLe (st.vectors.map (sqDist q)).enum)
        ((st.vectors.map (sqDist q)).enum) := List.perm_insertionSort _ _
    have hsorted : List.Sorted distLe
        (List.insertionSort distLe (st.vectors.map (sqDist q)).enum) :=
      List.sorted_insertionSort _ _
    have hbounds : ∀ p ∈ List.insertionSort distLe (st.vectors.map (sqDist q)).enum,
        p.1 < st.chunks.length ∧ 0 ≤ p.2 := by
      intro p hp
      have h1 := ranked_entry_bounds st q p hp
      exact ⟨hvc ▸ h1.1, h1.2⟩
    have htake : ∀ p ∈ (List.insertionSort distLe
        (st.vectors.map (sqDist q)).enum).take (min k st.vectors.length),
        p.1 < st.chunks.length :=
      fun p hp => (hbounds p (List.Sublist.mem hp (List.take_sublist _ _))).1
    refine ⟨_, List.insertionSort distLe (st.vectors.map (sqDist q)).enum,
      ?_, hperm, hsorted, rfl, ?_, ?_, ?_⟩
    · unfold search
      rw [if_neg h0, if_neg (by simp [hq])]
      exact congrArg Except.ok (filterMap_scores_eq_map st.chunks _ htake)
    · have hlr : (List.insertionSort distLe (st.vectors.map (sqDist q)).enum).length
          = st.vectors.length := by
        rw [hperm.length_eq, List.enum_length, List.length_map]
      rw [List.length_map, List.length_take, hlr]
      have htcn : st.metadata.total_chunks = st.vectors.length := by omega
      rw [htcn]
      omega
    · intro pr hpr
      obtain ⟨p, hp, rfl⟩ := List.mem_map.mp hpr
      have hb := hbounds p (List.Sublist.mem hp (List.take_sublist _ _))
      refine ⟨?_, score_pos p.2 hb.2, score_le_one p.2 hb.2⟩
      rw [List.getD_eq_get st.chunks default hb.1]
      exact List.get_mem _ _ _
    · intro p hp
      exact score_eq_one_iff p.2 (hbounds p hp).2

/-- Witness for C8: the invariant-satisfying two-chunk index with query
[0] and k = 5. -/
theorem c8_witness :
    IndexInvariant indexerAB ∧
    ([(0 : ℚ)] : List ℚ).length = indexerAB.embedding_dim ∧
    (∃ res ranked,
      search indexerAB [0] 5 = .ok res ∧
      List.Perm ranked (indexerAB.vectors.map (sqDist [0])).enum ∧
      List.Sorted distLe ranked ∧
      res = (ranked.take (min 5 indexerAB.vectors.length)).map
        (fun p => (indexerAB.chunks.getD p.1 default, 1 / (1 + p.2))) ∧
      res.length = min 5 indexerAB.metadata.total_chunks ∧
      (∀ pr ∈ res, pr.1 ∈ indexerAB.chunks ∧ 0 < pr.2 ∧ pr.2 ≤ 1) ∧
      (∀ p ∈ ranked, (1 / (1 + p.2) = 1 ↔ p.2 = 0))) :=
  ⟨by decide, rfl, c8_search_spec indexerAB (by decide) [0] rfl 5⟩

/-- The chunking loop, run from any accumulator, appends exactly the
surviving candidates, enumerated from the current accumulator length
(which is what the source uses as chunk_index). -/
theorem create_chunks_go_eq (p : ChunkParams) (words : List (List Char))
    (fp d : String) (offs : List ℕ) (acc : List DocumentChunk) :
    create_chunks_go p words fp d offs acc =
      acc ++ ((spec_candidates p words offs).enumFrom acc.length).map
        (fun jc =>
          { content := jc.2.2,
            metadata :=
              { file_path := fp, file_name := basename fp,
                chunk_index := jc.1, start_index := jc.2.1,
                end_index := min (jc.2.1 + p.chunk_size) words.length },
            chunk_id := chunk_id_of d jc.2.1,
            document_id := d }) := by
  induction offs generalizing acc with
  | nil => simp [create_chunks_go, spec_candidates]
  | cons i rest ih =>
      by_cases hshort : (pyStrip (joinWords ((words.drop i).take p.chunk_size))).length < 50
      · simp only [create_chunks_go, spec_candidates, if_pos hshort]
        exact ih acc
      · simp only [create_chunks_go, spec_candidates, if_neg hshort]
        rw [ih]
        simp [List.enumFrom_cons, List.length_append, List.append_assoc]

/-- C6: for chunk_overlap < chunk_size, _create_chunks computes exactly
the algorithm stated by the specification: chunks at word offsets 0,
step, 2*step, ... with step = chunk_size - chunk_overlap, each spanning
[offset, offset + chunk_size) words clipped at text end, candidates
below the minimum-content threshold dropped, chunk ids a deterministic
function of (document_id, start offset) and chunk_index dense and
zero-based; both sides being pure functions of (text, parameters,
file_path, document_id), identical inputs give identical chunk
sequences, offsets and chunk ids. -/
theorem c6_create_chunks_refines_spec (p : ChunkParams)
    (hov : p.chunk_overlap < p.chunk_size) (text fp d : String) :
    create_chunks p text fp d = create_chunks_spec p text fp d := by
  unfold create_chunks create_chunks_spec
  by_cases hw : pyWords text.data = []
  · rw [if_pos hw, hw]
    have hz : (p.chunk_size - p.chunk_overlap - 1) /
        (p.chunk_size - p.chunk_overlap) = 0 :=
      Nat.div_eq_of_lt (by omega)
    simp [pyRange, hz, spec_candidates]
  · rw [if_neg hw]
    simpa using create_chunks_go_eq p (pyWords text.data) fp d
      (pyRange (pyWords text.data).length (p.chunk_size - p.chunk_overlap)) []

/-- Witness for C6: the parameters (10, 2) on a small text. -/
theorem c6_witness :
    (({ chunk_size := 10, chunk_overlap := 2 } : ChunkParams).chunk_overlap <
      ({ chunk_size := 10, chunk_overlap := 2 } : ChunkParams).chunk_size) ∧
    create_chunks { chunk_size := 10, chunk_overlap := 2 } "hello chunking world" "f.txt" "d" =
      create_chunks_spec { chunk_size := 10, chunk_overlap := 2 } "hello chunking world" "f.txt" "d" :=
  ⟨by decide, c6_create_chunks_refines_spec { chunk_size := 10, chunk_overlap := 2 }
    (by decide) "hello chunking world" "f.txt" "d"⟩

/-- Every chunk the loop emits beyond the accumulator passed the
minimum-content threshold. -/
theorem create_chunks_go_content (p : ChunkParams) (words : List (List Char))
    (fp d : String) (offs : List ℕ) (acc : List DocumentChunk)
    (c : DocumentChunk) (hc : c ∈ create_chunks_go p words fp d offs acc) :
    c ∈ acc ∨ 50 ≤ (pyStrip c.content).length := by
  induction offs generalizing acc with
  | nil => exact Or.inl hc
  | cons i rest ih =>
      simp only [create_chunks_go] at hc
      by_cases hshort : (pyStrip (joinWords ((words.drop i).take p.chunk_size))).length < 50
      · rw [if_pos hshort] at hc
        exact ih acc hc
      · rw [if_neg hshort] at hc
        rcases ih _ hc with hmem | hlen
        · rcases List.mem_append.mp hmem with h1 | h2
          · exact Or.inl h1
          · right
            have hcc : c.content = joinWords ((words.drop i).take p.chunk_size) := by
              rw [List.mem_singleton.mp h2]
            rw [hcc]
            omega
        · exact Or.inr hlen

/-- C7 counterexample: with the default parameters the two-letter text hi
yields one word and zero chunks (its only candidate is shorter than the
50 character minimum), so the produced chunk ranges do not cover every
word: the claim fails on this input while the threshold part alone
holds. -/
theorem c7_counterexample :
    create_chunks { chunk_size := 1000, chunk_overlap := 200 } "hi" "f.txt" "d" = [] ∧
    (pyWords ( "hi" : String).data).length = 1 ∧
    ¬ (∀ w < (pyWords ( "hi" : String).data).length,
        ∃ c ∈ create_chunks { chunk_size := 1000, chunk_overlap := 200 } "hi" "f.txt" "d",
          c.metadata.start_index ≤ w ∧ w < c.metadata.end_index) := by
  refine ⟨rfl, rfl, ?_⟩
  decide

/-- C7 (amended): for chunk_overlap < chunk_size, every word of the text
lies in the clipped word range [i, min(i + chunk_size, word count)) of
some candidate start offset i (the offsets walked before the
minimum-content filter), and every produced chunk has stripped content
of at least the 50 character minimum; coverage restricted to the
produced chunks alone can fail because a candidate below the threshold
is dropped together with its range. -/
theorem c7_coverage_amended (p : ChunkParams)
    (hov : p.chunk_overlap < p.chunk_size) (text fp d : String) :
    (∀ w < (pyWords text.data).length,
        ∃ i ∈ pyRange (pyWords text.data).length (p.chunk_size - p.chunk_overlap),
          i ≤ w ∧ w < min (i + p.chunk_size) (pyWords text.data).length) ∧
    (∀ c ∈ create_chunks p text fp d, 50 ≤ (pyStrip c.content).length) := by
  constructor
  · intro w hw
    have hpos : 0 < p.chunk_size - p.chunk_overlap := by omega
    have hss : p.chunk_size - p.chunk_overlap ≤ p.chunk_size := by omega
    obtain ⟨A, hA⟩ : ∃ A, (p.chunk_size - p.chunk_overlap) * (w / (p.chunk_size - p.chunk_overlap)) = A :=
      ⟨_, rfl⟩
    have hdm := Nat.div_add_mod w (p.chunk_size - p.chunk_overlap)
    have hmlt : w % (p.chunk_size - p.chunk_overlap) < p.chunk_size - p.chunk_overlap :=
      Nat.mod_lt w hpos
    refine ⟨A, ?_, by omega, ?_⟩
    · rw [pyRange, List.mem_range']
      refine ⟨w / (p.chunk_size - p.chunk_overlap), ?_, by omega⟩
      rw [Nat.lt_iff_add_one_le, Nat.le_div_iff_mul_le hpos, Nat.add_mul, Nat.one_mul,
        Nat.mul_comm, hA]
      omega
    · rw [lt_min_iff]
      exact ⟨by omega, hw⟩
  · intro c hc
    unfold create_chunks at hc
    by_cases hw : pyWords text.data = []
    · rw [if_pos hw] at hc
      cases hc
    · rw [if_neg hw] at hc
      rcases create_chunks_go_content p (pyWords text.data) fp d _ [] c hc with h1 | h2
      · cases h1
      · exact h2

/-- Witness for C7 (amended): the parameters (10, 2) on a small text. -/
theorem c7_witness :
    (({ chunk_size := 10, chunk_overlap := 2 } : ChunkParams).chunk_overlap <
      ({ chunk_size := 10, chunk_overlap := 2 } : ChunkParams).chunk_size) ∧
    ((∀ w < (pyWords ( "tiny text" : String).data).length,
        ∃ i ∈ pyRange (pyWords ( "tiny text" : String).data).length
            (({ chunk_size := 10, chunk_overlap := 2 } : ChunkParams).chunk_size -
              ({ chunk_size := 10, chunk_overlap := 2 } : ChunkParams).chunk_overlap),
          i ≤ w ∧ w < min (i + ({ chunk_size := 10, chunk_overlap := 2 } : ChunkParams).chunk_size)
            (pyWords ( "tiny text" : String).data).length) ∧
      (∀ c ∈ create_chunks { chunk_size := 10, chunk_overlap := 2 } "tiny text" "f.txt" "d",
        50 ≤ (pyStrip c.content).length)) :=
  ⟨by decide, c7_coverage_amended { chunk_size := 10, chunk_overlap := 2 }
    (by decide) "tiny text" "f.txt" "d"⟩

end Semantica
